import Mathlib

/-!
Shallow embedding of `src/server/main-api/src/calendar/connectum.rs`
(NavigaTUM calendar sync: `APIRequestor`).

The module has three parts:
* the OAuth token cache (`try_unwrap_or_refresh_token`, `fetch_new_oauth_token`),
* the fetch-and-tag step of `refresh`,
* the transactional store (`store`, `delete_events`, `update_last_calendar_scrape_at`).

I/O effects (the token exchange, the calendar GET, per-row SQL failures) are
modelled as oracle values/predicates supplied in environment records; the
control flow around them is translated statement by statement from the source.
Timestamps (`DateTime<Utc>`) are modelled as `Nat`; `Duration` values as `Nat`
nanoseconds.
-/

namespace Connectum

/-- Modelled from the spec: `crate::calendar::models::Event` is not under
`src/`; the spec's data model gives `{ room_code, start, end, title/metadata }`.
Only `room_code` is touched by the code under `src/`. -/
structure Event where
  room_code : String
  start_at : Int
  end_at : Int
  title : String
deriving DecidableEq, Repr

/-- The `oauth2::basic::BasicTokenResponse` as the code uses it:
`access_token().secret()` collapsed to `secret`, and `expires_in()`
(an `Option<Duration>`) as `Option Nat` in nanoseconds. -/
structure BasicTokenResponse where
  secret : String
  expires_in : Option Nat
deriving DecidableEq, Repr

/-- Errors of the token path: a missing environment variable
(`io::Error::other(...)` in the source, raised before any exchange) or a
failed client-credentials exchange. -/
inductive TokenErr where
  | configError (var : String)
  | exchangeFailed
deriving DecidableEq, Repr

/-- Result of `try_unwrap_or_refresh_token`: `Ok(secret)`, a propagated
error, or the `.expect("the token has been set in the last step")` firing. -/
inductive TokenOutcome where
  | ok (secret : String)
  | err (e : TokenErr)
  | panicked
deriving DecidableEq, Repr

/-- `Duration::from_secs(10)` in nanoseconds. -/
def refresh_margin : Nat := 10000000000

/-- The refresh decision of `try_unwrap_or_refresh_token`: the `None` match arm
always fetches; the `Some(token)` arm fetches when
`!expires_in.is_some_and(|e| e > Duration::from_secs(10))`. -/
def token_needs_refresh (oauth_token : Option BasicTokenResponse) : Bool :=
  match oauth_token with
  | none => true
  | some token =>
    !(match token.expires_in with
      | none => false
      | some e => decide (e > refresh_margin))

/-- The final unwrap of `try_unwrap_or_refresh_token`:
`self.oauth_token.as_ref().expect(...).access_token().secret().clone()`.
`panicked` models the `expect` firing on an empty cache. -/
def final_token_unwrap (oauth_token : Option BasicTokenResponse) : TokenOutcome :=
  match oauth_token with
  | some tok => .ok tok.secret
  | none => .panicked

/-- `APIRequestor::try_unwrap_or_refresh_token`, with the (at most one) call to
`fetch_new_oauth_token` pre-evaluated into `fetch_result`. Returns the
outcome, the cache (`self.oauth_token`) after the call, and how many times the
token source was invoked. On a failed fetch the `?` operator returns before
the assignment, so the cache is left as it was. -/
def try_unwrap_or_refresh_token (fetch_result : Except TokenErr BasicTokenResponse)
    (oauth_token : Option BasicTokenResponse) :
    TokenOutcome × Option BasicTokenResponse × Nat :=
  if token_needs_refresh oauth_token then
    match fetch_result with
    | .error e => (.err e, oauth_token, 1)
    | .ok tok => (final_token_unwrap (some tok), some tok, 1)
  else
    (final_token_unwrap oauth_token, oauth_token, 0)

/-- Environment of `fetch_new_oauth_token`: the process environment
(`env::var`) and the client-credentials exchange against the hardcoded
endpoints (`request_async`), as an oracle. -/
structure TokenEnv where
  env_var : String → Option String
  exchange : String → String → Except Unit BasicTokenResponse

/-- `APIRequestor::fetch_new_oauth_token`. Reads the two environment
variables (failing with a config error before any exchange), trims them and
performs the exchange. The hardcoded endpoint URLs always parse, so the
`Url::parse` error path is dead. The `Nat` counts exchange attempts. -/
def fetch_new_oauth_token (env : TokenEnv) :
    Except TokenErr BasicTokenResponse × Nat :=
  match env.env_var "CONNECTUM_OAUTH_CLIENT_ID" with
  | none => (.error (.configError "CONNECTUM_OAUTH_CLIENT_ID"), 0)
  | some client_id =>
    match env.env_var "CONNECTUM_OAUTH_CLIENT_SECRET" with
    | none => (.error (.configError "CONNECTUM_OAUTH_CLIENT_SECRET"), 0)
    | some client_secret =>
      match env.exchange client_id.trim client_secret.trim with
      | .error _ => (.error .exchangeFailed, 1)
      | .ok tok => (.ok tok, 1)

/-- A locale table (`en` / `de`) restricted to the columns the module touches:
rows of `(key, last_calendar_scrape_at)`. -/
abbrev LocaleTable := List (String × Nat)

/-- `SELECT last_calendar_scrape_at FROM tbl WHERE key = $1` (first match). -/
def lookup_scrape (tbl : LocaleTable) (key : String) : Option Nat :=
  match tbl with
  | [] => none
  | kv :: rest => if kv.1 = key then some kv.2 else lookup_scrape rest key

/-- `UPDATE tbl SET last_calendar_scrape_at = $1 WHERE key = $2`: every row
whose key matches is overwritten; no row is ever inserted, and a zero-match
update succeeds. -/
def sql_update_scrape (tbl : LocaleTable) (key : String) (t : Nat) : LocaleTable :=
  tbl.map (fun kv => if kv.1 = key then (kv.1, t) else kv)

/-- The database state the module touches: the `calendar` event table and the
two locale tables. -/
structure Db where
  calendar : List Event
  en : LocaleTable
  de : LocaleTable
deriving DecidableEq, Repr

/-- Failure oracles for one `store` transaction: whether the `DELETE`
succeeds, which per-row inserts (`event.store`) succeed, and whether each of
the two freshness `UPDATE`s succeeds. -/
structure StoreEnv where
  delete_ok : Bool
  insert_ok : Event → Bool
  update_en_ok : Bool
  update_de_ok : Bool

/-- The error `store` returns: the failed `DELETE` or the failed freshness
`UPDATE` (both propagated `sqlx` errors in the source). -/
inductive StoreErr where
  | deleteFailed
  | scrapeUpdateFailed
deriving DecidableEq, Repr

/-- `APIRequestor::delete_events`: `DELETE FROM calendar WHERE room_code = $1`. -/
def delete_events (calendar : List Event) (id : String) : List Event :=
  calendar.filter (fun e => !(e.room_code == id))

/-- The insert loop of `store`: each event is inserted in order; a failed
insert is logged and skipped, leaving the table as it was. -/
def insert_events (env : StoreEnv) (calendar : List Event) (events : List Event) :
    List Event :=
  events.foldl (fun cal event => if env.insert_ok event then cal ++ [event] else cal)
    calendar

/-- `APIRequestor::update_last_calendar_scrape_at`: the `en` update, then
(only if it succeeded) the `de` update; the first failure propagates. -/
def update_last_calendar_scrape_at (env : StoreEnv) (db : Db) (id : String)
    (t : Nat) : Except StoreErr Db :=
  if env.update_en_ok then
    let db := { db with en := sql_update_scrape db.en id t }
    if env.update_de_ok then
      .ok { db with de := sql_update_scrape db.de id t }
    else
      .error .scrapeUpdateFailed
  else
    .error .scrapeUpdateFailed

/-- `APIRequestor::store`: begin a transaction; delete the room's rows (on
failure roll back and return the error); insert each event, skipping failed
rows; update both freshness timestamps to `last_calendar_scrape_at` (on
failure roll back and return the error); commit. A rollback leaves the
visible state exactly `db`. -/
def store (env : StoreEnv) (db : Db) (events : List Event)
    (last_calendar_scrape_at : Nat) (id : String) :
    Except StoreErr Unit × Db :=
  if env.delete_ok then
    let tx := { db with calendar := delete_events db.calendar id }
    let tx := { tx with calendar := insert_events env tx.calendar events }
    match update_last_calendar_scrape_at env tx id last_calendar_scrape_at with
    | .error e => (.error e, db)
    | .ok tx => (.ok (), tx)
  else
    (.error .deleteFailed, db)

/-- The tagging step of `refresh`: every fetched event's `room_code` is
overwritten with the requested id. -/
def tag_events (events : List Event) (id : String) : List Event :=
  events.map (fun e => { e with room_code := id })

/-- `SELECT * FROM calendar WHERE room_code = $1`: the stored events a reader
sees for a room. -/
def events_for_room (db : Db) (id : String) : List Event :=
  db.calendar.filter (fun e => e.room_code == id)

/-- The error `refresh` surfaces: a token-path error, the (unreachable)
token-cache panic, a failed calendar GET / deserialization, or a store error. -/
inductive RefreshErr where
  | token (e : TokenErr)
  | tokenPanic
  | fetchFailed
  | storeFailed (e : StoreErr)
deriving DecidableEq, Repr

/-- Environment of one `refresh` call: the token environment and the calendar
GET result (`FetchError` or the deserialized event list) as an oracle. -/
structure RefreshEnv where
  token_env : TokenEnv
  fetch_events : Except Unit (List Event)
  store_env : StoreEnv

/-- `APIRequestor::refresh`: capture `sync_start` (a parameter here, bound at
entry, before the token step and the fetch), get a valid token, GET the
room's events, overwrite each event's `room_code` with `id`, and store the
batch with `sync_start`. Returns the result, the token cache afterwards, the
database afterwards, and how many calendar GETs were issued. -/
def refresh (env : RefreshEnv) (oauth_token : Option BasicTokenResponse)
    (db : Db) (id : String) (sync_start : Nat) :
    Except RefreshErr Unit × Option BasicTokenResponse × Db × Nat :=
  let fetched := fetch_new_oauth_token env.token_env
  let step := try_unwrap_or_refresh_token fetched.1 oauth_token
  match step.1 with
  | .err e => (.error (.token e), step.2.1, db, 0)
  | .panicked => (.error .tokenPanic, step.2.1, db, 0)
  | .ok _secret =>
    match env.fetch_events with
    | .error _ => (.error .fetchFailed, step.2.1, db, 1)
    | .ok events =>
      let events := tag_events events id
      match store env.store_env db events sync_start id with
      | (.error e, db) => (.error (.storeFailed e), step.2.1, db, 1)
      | (.ok _, db) => (.ok (), step.2.1, db, 1)

/-! ### Helper lemmas about the store primitives -/

theorem insert_events_eq_filter (env : StoreEnv) (events : List Event) :
    ∀ cal : List Event, insert_events env cal events = cal ++ events.filter env.insert_ok := by
  induction events with
  | nil => intro cal; simp [insert_events]
  | cons e es ih =>
    intro cal
    have ihe := ih (if env.insert_ok e then cal ++ [e] else cal)
    simp only [insert_events, List.foldl_cons] at ihe ⊢
    rw [ihe, List.filter_cons]
    cases h : env.insert_ok e <;> simp [h]

theorem delete_events_append (a b : List Event) (id : String) :
    delete_events (a ++ b) id = delete_events a id ++ delete_events b id := by
  simp [delete_events, List.filter_append]

theorem delete_events_delete_events (cal : List Event) (id : String) :
    delete_events (delete_events cal id) id = delete_events cal id := by
  apply List.filter_eq_self.mpr
  intro e he
  simp only [delete_events] at he
  have hp := List.of_mem_filter he
  simpa using hp

theorem delete_events_of_forall (l : List Event) (id : String)
    (h : ∀ e ∈ l, e.room_code = id) : delete_events l id = [] := by
  apply List.filter_eq_nil_iff.mpr
  intro e he
  simp [h e he]

theorem filter_room_delete_events (cal : List Event) (id : String) :
    (delete_events cal id).filter (fun e => e.room_code == id) = [] := by
  apply List.filter_eq_nil_iff.mpr
  intro e he
  simp only [delete_events] at he
  have hp := List.of_mem_filter he
  simp at hp
  simp [hp]

theorem lookup_sql_update_self (tbl : LocaleTable) (key : String) (t : Nat) :
    lookup_scrape (sql_update_scrape tbl key t) key
      = (lookup_scrape tbl key).map (fun _ => t) := by
  induction tbl with
  | nil => rfl
  | cons kv rest ih =>
    by_cases h : kv.1 = key
    · simp [sql_update_scrape, lookup_scrape, h]
    · simp only [sql_update_scrape, List.map_cons] at ih ⊢
      simp [lookup_scrape, h, ih]

theorem sql_update_keys (tbl : LocaleTable) (key : String) (t : Nat) :
    (sql_update_scrape tbl key t).map Prod.fst = tbl.map Prod.fst := by
  induction tbl with
  | nil => rfl
  | cons kv rest ih =>
    by_cases h : kv.1 = key <;> simp_all [sql_update_scrape]

theorem sql_update_twice (tbl : LocaleTable) (key : String) (t t' : Nat) :
    sql_update_scrape (sql_update_scrape tbl key t) key t'
      = sql_update_scrape tbl key t' := by
  induction tbl with
  | nil => rfl
  | cons kv rest ih =>
    by_cases h : kv.1 = key <;> simp_all [sql_update_scrape]

/-- The success path of `store`: when the delete and both freshness updates
succeed, the transaction commits and the visible state is the deleted
calendar plus the insertable events, with both locale tables stamped. -/
theorem store_success (env : StoreEnv) (db : Db) (events : List Event) (t : Nat)
    (id : String) (hdel : env.delete_ok = true) (hen : env.update_en_ok = true)
    (hde : env.update_de_ok = true) :
    store env db events t id =
      (.ok (), ⟨delete_events db.calendar id ++ events.filter env.insert_ok,
        sql_update_scrape db.en id t, sql_update_scrape db.de id t⟩) := by
  simp [store, hdel, update_last_calendar_scrape_at, hen, hde, insert_events_eq_filter]

/-! ### Concrete sample values used by witnesses and counterexamples -/

/-- A store environment where every database operation succeeds. -/
def env_all_ok : StoreEnv :=
  { delete_ok := true, insert_ok := fun _ => true,
    update_en_ok := true, update_de_ok := true }

/-- A store environment where only events titled `"bad"` fail to insert. -/
def env_skip_bad : StoreEnv :=
  { delete_ok := true, insert_ok := fun e => !(e.title == "bad"),
    update_en_ok := true, update_de_ok := true }

/-- A store environment whose `DELETE` step fails. -/
def env_delete_fails : StoreEnv := { env_all_ok with delete_ok := false }

/-- An event already tagged with room `"r"`. -/
def ev_r : Event := ⟨"r", 0, 1, "lecture"⟩

/-- A malformed event for room `"r"` (its insert fails under `env_skip_bad`). -/
def ev_bad : Event := ⟨"r", 2, 3, "bad"⟩

/-- An upstream event whose payload carries a different room field. -/
def ev_other : Event := ⟨"other", 0, 1, "stray"⟩

/-- A database with no rows at all (in particular no freshness rows). -/
def db_empty : Db := ⟨[], [], []⟩

/-- A database holding a pre-existing freshness row for room `"r"` in both
locale tables. -/
def db_fresh : Db := ⟨[], [("r", 99)], [("r", 99)]⟩

/-- A cached token with 3600 s of lifetime left. -/
def fresh_token : BasicTokenResponse := ⟨"fresh-secret", some 3600000000000⟩

/-- A cached token whose lifetime is exhausted. -/
def stale_token : BasicTokenResponse := ⟨"old-secret", some 0⟩

/-- The token a successful exchange returns. -/
def new_token : BasicTokenResponse := ⟨"new-secret", some 3600000000000⟩

/-- A token environment with no environment variables set. -/
def env_no_id : TokenEnv :=
  { env_var := fun _ => none, exchange := fun _ _ => .ok new_token }

/-! ### Claim theorems -/

/-- C2: `try_unwrap_or_refresh_token` invokes the token source exactly once
precisely when no token is cached, the cached token's remaining lifetime is
unknown, or that lifetime is ≤ 10 s (including exactly 10 s); for a cached
token with lifetime strictly greater than 10 s it performs no fetch, leaves
the cache untouched and returns the cached secret; when it does fetch and the
exchange succeeds, the cache is replaced by the new token and its secret is
returned. -/
theorem C2_token_reuse_and_refresh (fr : Except TokenErr BasicTokenResponse)
    (ct : Option BasicTokenResponse) :
    ((try_unwrap_or_refresh_token fr ct).2.2
        = if token_needs_refresh ct then 1 else 0)
    ∧ (token_needs_refresh ct = false →
        (try_unwrap_or_refresh_token fr ct).2.1 = ct
        ∧ ∃ tok, ct = some tok
            ∧ (try_unwrap_or_refresh_token fr ct).1 = .ok tok.secret)
    ∧ (∀ tok, token_needs_refresh ct = true → fr = .ok tok →
        (try_unwrap_or_refresh_token fr ct).2.1 = some tok
        ∧ (try_unwrap_or_refresh_token fr ct).1 = .ok tok.secret)
    ∧ (token_needs_refresh ct = true ↔
        ct = none
        ∨ ∃ tok, ct = some tok
            ∧ (tok.expires_in = none
              ∨ ∃ e, tok.expires_in = some e ∧ e ≤ refresh_margin)) := by
  refine ⟨?_, ?_, ?_, ?_⟩
  · cases h : token_needs_refresh ct <;> cases fr <;>
      simp [try_unwrap_or_refresh_token, h]
  · intro h
    cases ct with
    | none => simp [token_needs_refresh] at h
    | some tok =>
      refine ⟨?_, tok, rfl, ?_⟩ <;>
        simp [try_unwrap_or_refresh_token, h, final_token_unwrap]
  · intro tok h hfr
    subst hfr
    constructor <;>
      simp [try_unwrap_or_refresh_token, h, final_token_unwrap]
  · cases ct with
    | none => simp [token_needs_refresh]
    | some tok =>
      cases he : tok.expires_in with
      | none => simp [token_needs_refresh, he]
      | some e =>
        simp [token_needs_refresh, he]

/-- C2 witness: a cached token with 3600 s of lifetime is reused — no fetch,
cache untouched, cached secret returned. -/
theorem C2_token_reuse_and_refresh_witness :
    token_needs_refresh (some fresh_token) = false
    ∧ (try_unwrap_or_refresh_token (.ok new_token) (some fresh_token)).2.2 = 0
    ∧ (try_unwrap_or_refresh_token (.ok new_token) (some fresh_token)).2.1
        = some fresh_token
    ∧ (try_unwrap_or_refresh_token (.ok new_token) (some fresh_token)).1
        = .ok "fresh-secret" := by
  have h := C2_token_reuse_and_refresh (.ok new_token) (some fresh_token)
  have hn : token_needs_refresh (some fresh_token) = false := by decide
  refine ⟨hn, ?_, (h.2.1 hn).1, ?_⟩
  · rw [h.1, hn]
    simp
  · obtain ⟨tok, htok, hout⟩ := (h.2.1 hn).2
    cases htok
    exact hout

/-- C3: the tagging step of `refresh` overwrites every fetched event's
`room_code` with the requested room id, whatever room field the upstream
payload contained. -/
theorem C3_room_tagging (events : List Event) (id : String) (e : Event)
    (he : e ∈ tag_events events id) : e.room_code = id := by
  simp only [tag_events, List.mem_map] at he
  obtain ⟨e', _, rfl⟩ := he
  rfl

/-- C3 witness: an upstream event carrying room `"other"` comes out of the
tagging step for room `"r"` with `room_code = "r"`. -/
theorem C3_room_tagging_witness :
    (Event.mk "r" 0 1 "stray").room_code = "r" :=
  C3_room_tagging [ev_other] "r" (Event.mk "r" 0 1 "stray") (by decide)

/-- C7 counterexample: with a stale cached token and a failing exchange, the
token source is invoked (a refresh was decided) yet the old token is still
cached afterwards — the claim's "the old token must not remain cached even
when the exchange fails" is false of the code: the `?` operator propagates
the error before the assignment overwrites the cache. -/
theorem C7_refresh_replace_counterexample :
    (try_unwrap_or_refresh_token (.error .exchangeFailed) (some stale_token)).2.2 = 1
    ∧ (try_unwrap_or_refresh_token (.error .exchangeFailed) (some stale_token)).2.1
        = some stale_token := by
  decide

/-- C7 amended: whenever a refresh is decided, a successful exchange replaces
the cached token with the new one; a failed exchange returns the error and
leaves the old token cached, but the old token's secret is never returned to
the caller. -/
theorem C7_refresh_replace_amended (fr : Except TokenErr BasicTokenResponse)
    (ct : Option BasicTokenResponse) (h : token_needs_refresh ct = true) :
    (∀ tok, fr = .ok tok →
        (try_unwrap_or_refresh_token fr ct).2.1 = some tok)
    ∧ (∀ e, fr = .error e →
        (try_unwrap_or_refresh_token fr ct).1 = .err e
        ∧ (try_unwrap_or_refresh_token fr ct).2.1 = ct) := by
  constructor
  · intro tok hfr
    subst hfr
    simp [try_unwrap_or_refresh_token, h]
  · intro e hfr
    subst hfr
    constructor <;> simp [try_unwrap_or_refresh_token, h]

/-- C7 amended witness: at the stale cached token and a failing exchange the
amended statement holds concretely. -/
theorem C7_refresh_replace_amended_witness :
    token_needs_refresh (some stale_token) = true
    ∧ ((∀ tok, (.error .exchangeFailed : Except TokenErr BasicTokenResponse) = .ok tok →
          (try_unwrap_or_refresh_token (.error .exchangeFailed) (some stale_token)).2.1
            = some tok)
      ∧ (∀ e, (.error .exchangeFailed : Except TokenErr BasicTokenResponse) = .error e →
          (try_unwrap_or_refresh_token (.error .exchangeFailed) (some stale_token)).1
            = .err e
          ∧ (try_unwrap_or_refresh_token (.error .exchangeFailed) (some stale_token)).2.1
            = some stale_token)) :=
  ⟨by decide,
    C7_refresh_replace_amended (.error .exchangeFailed) (some stale_token) (by decide)⟩

/-- C9: for every initial cache state and every fetch result,
`try_unwrap_or_refresh_token` either propagates the exchange error or returns
a token secret; the final `.expect("the token has been set in the last
step")` never fires. -/
theorem C9_no_panic (fr : Except TokenErr BasicTokenResponse)
    (ct : Option BasicTokenResponse) :
    (try_unwrap_or_refresh_token fr ct).1 ≠ .panicked
    ∧ ((∃ e, fr = .error e ∧ (try_unwrap_or_refresh_token fr ct).1 = .err e)
      ∨ (∃ s, (try_unwrap_or_refresh_token fr ct).1 = .ok s)) := by
  cases hr : token_needs_refresh ct with
  | false =>
    cases ct with
    | none => simp [token_needs_refresh] at hr
    | some tok =>
      constructor <;>
        simp [try_unwrap_or_refresh_token, hr, final_token_unwrap]
  | true =>
    cases fr with
    | error e =>
      constructor <;> simp [try_unwrap_or_refresh_token, hr]
    | ok tok =>
      constructor <;>
        simp [try_unwrap_or_refresh_token, hr, final_token_unwrap]

/-- C1 counterexample: a successful `store` into a database with no
freshness rows and an event batch still carrying a foreign room field leaves
the `en` timestamp for the room unset (not `t`) and the queried events for
the room different from the valid subset of the batch — both postconditions
of the claim fail as stated. -/
theorem C1_atomic_replace_counterexample :
    (store env_all_ok db_empty [ev_other] 0 "r").1 = .ok ()
    ∧ events_for_room (store env_all_ok db_empty [ev_other] 0 "r").2 "r"
        ≠ [ev_other].filter env_all_ok.insert_ok
    ∧ lookup_scrape (store env_all_ok db_empty [ev_other] 0 "r").2.en "r" ≠ some 0 := by
  refine ⟨rfl, ?_, ?_⟩ <;> decide

/-- C1 amended: after a successful `store env db events t id` — provided
every event in the batch carries `id` as its `room_code` (as the tagging step
of `refresh` guarantees) and a freshness row for `id` pre-exists in each
locale table — the stored events queried for `id` are exactly the valid
subset of `events` (rows whose insert fails excluded), and the freshness
timestamp for `id` in both `en` and `de` equals `t` (in `refresh`, `t` is the
`sync_start` captured at entry, before the fetch). -/
theorem C1_atomic_replace_amended (env : StoreEnv) (db : Db) (events : List Event)
    (t : Nat) (id : String) (hdel : env.delete_ok = true)
    (hen : env.update_en_ok = true) (hde : env.update_de_ok = true)
    (hev : ∀ e ∈ events, e.room_code = id)
    (hfen : (lookup_scrape db.en id).isSome = true)
    (hfde : (lookup_scrape db.de id).isSome = true) :
    (store env db events t id).1 = .ok ()
    ∧ events_for_room (store env db events t id).2 id = events.filter env.insert_ok
    ∧ lookup_scrape (store env db events t id).2.en id = some t
    ∧ lookup_scrape (store env db events t id).2.de id = some t := by
  rw [store_success env db events t id hdel hen hde]
  refine ⟨rfl, ?_, ?_, ?_⟩
  · show (delete_events db.calendar id ++ events.filter env.insert_ok).filter
        (fun e => e.room_code == id) = events.filter env.insert_ok
    rw [List.filter_append, filter_room_delete_events, List.nil_append]
    apply List.filter_eq_self.mpr
    intro e he
    have := hev e (List.mem_of_mem_filter he)
    simp [this]
  · show lookup_scrape (sql_update_scrape db.en id t) id = some t
    rw [lookup_sql_update_self]
    obtain ⟨t0, h0⟩ := Option.isSome_iff_exists.mp hfen
    simp [h0]
  · show lookup_scrape (sql_update_scrape db.de id t) id = some t
    rw [lookup_sql_update_self]
    obtain ⟨t0, h0⟩ := Option.isSome_iff_exists.mp hfde
    simp [h0]

/-- C1 amended witness: room `"r"` with pre-existing freshness rows, one good
and one malformed event, stamped at `t = 7`. -/
theorem C1_atomic_replace_amended_witness :
    (∀ e ∈ [ev_r, ev_bad], e.room_code = "r")
    ∧ (lookup_scrape db_fresh.en "r").isSome = true
    ∧ ((store env_skip_bad db_fresh [ev_r, ev_bad] 7 "r").1 = .ok ()
      ∧ events_for_room (store env_skip_bad db_fresh [ev_r, ev_bad] 7 "r").2 "r"
          = [ev_r, ev_bad].filter env_skip_bad.insert_ok
      ∧ lookup_scrape (store env_skip_bad db_fresh [ev_r, ev_bad] 7 "r").2.en "r"
          = some 7
      ∧ lookup_scrape (store env_skip_bad db_fresh [ev_r, ev_bad] 7 "r").2.de "r"
          = some 7) :=
  ⟨by decide, by decide,
    C1_atomic_replace_amended env_skip_bad db_fresh [ev_r, ev_bad] 7 "r"
      rfl rfl rfl (by decide) (by decide) (by decide)⟩

/-- C4: when the delete and both freshness updates succeed, a batch with
failing per-row inserts still commits: the final calendar is the cleaned
table plus exactly the insertable events (each insertable event is present),
and both freshness tables are stamped — a single-row insert failure is
skipped and affects nothing else. -/
theorem C4_partial_failure_isolation (env : StoreEnv) (db : Db)
    (events : List Event) (t : Nat) (id : String) (hdel : env.delete_ok = true)
    (hen : env.update_en_ok = true) (hde : env.update_de_ok = true) :
    (store env db events t id).1 = .ok ()
    ∧ (store env db events t id).2.calendar
        = delete_events db.calendar id ++ events.filter env.insert_ok
    ∧ (∀ e ∈ events, env.insert_ok e = true → e ∈ (store env db events t id).2.calendar)
    ∧ (store env db events t id).2.en = sql_update_scrape db.en id t
    ∧ (store env db events t id).2.de = sql_update_scrape db.de id t := by
  rw [store_success env db events t id hdel hen hde]
  refine ⟨rfl, rfl, ?_, rfl, rfl⟩
  intro e hmem hins
  show e ∈ delete_events db.calendar id ++ events.filter env.insert_ok
  rw [List.mem_append]
  exact Or.inr (List.mem_filter.mpr ⟨hmem, hins⟩)

/-- C4 witness: a two-event batch where the second insert fails — the first
event is stored, the freshness tables are stamped, and the transaction
commits. -/
theorem C4_partial_failure_isolation_witness :
    env_skip_bad.delete_ok = true
    ∧ ((store env_skip_bad db_fresh [ev_r, ev_bad] 7 "r").1 = .ok ()
      ∧ (store env_skip_bad db_fresh [ev_r, ev_bad] 7 "r").2.calendar
          = delete_events db_fresh.calendar "r" ++ [ev_r, ev_bad].filter env_skip_bad.insert_ok
      ∧ (∀ e ∈ [ev_r, ev_bad], env_skip_bad.insert_ok e = true →
          e ∈ (store env_skip_bad db_fresh [ev_r, ev_bad] 7 "r").2.calendar)
      ∧ (store env_skip_bad db_fresh [ev_r, ev_bad] 7 "r").2.en
          = sql_update_scrape db_fresh.en "r" 7
      ∧ (store env_skip_bad db_fresh [ev_r, ev_bad] 7 "r").2.de
          = sql_update_scrape db_fresh.de "r" 7) :=
  ⟨rfl, C4_partial_failure_isolation env_skip_bad db_fresh [ev_r, ev_bad] 7 "r"
    rfl rfl rfl⟩

/-- C5: if the delete step or either freshness-update step of `store` fails,
the function returns a store error and the visible database state is exactly
the state before the call — the transaction is rolled back. -/
theorem C5_rollback_on_failure (env : StoreEnv) (db : Db) (events : List Event)
    (t : Nat) (id : String)
    (h : env.delete_ok = false ∨ env.update_en_ok = false ∨ env.update_de_ok = false) :
    (store env db events t id).2 = db
    ∧ ∃ e, (store env db events t id).1 = .error e := by
  rcases h with h | h | h
  · simp [store, h]
  · cases hdel : env.delete_ok <;>
      simp [store, hdel, update_last_calendar_scrape_at, h]
  · cases hdel : env.delete_ok <;>
      cases hen : env.update_en_ok <;>
      simp [store, hdel, update_last_calendar_scrape_at, hen, h]

/-- C5 witness: a failing delete step leaves the database exactly as it was
and surfaces a store error. -/
theorem C5_rollback_on_failure_witness :
    env_delete_fails.delete_ok = false
    ∧ ((store env_delete_fails db_fresh [ev_r] 3 "r").2 = db_fresh
      ∧ ∃ e, (store env_delete_fails db_fresh [ev_r] 3 "r").1 = .error e) :=
  ⟨rfl, C5_rollback_on_failure env_delete_fails db_fresh [ev_r] 3 "r" (Or.inl rfl)⟩

/-- C6 counterexample: two successful back-to-back `store` calls with the
same room, identical events and a *later* `sync_started_at` (0 then 1) change
the freshness timestamp (99 → 0 → 1), so "the freshness timestamps are
unchanged after the second call" fails for the "or a later" part of the
claim. -/
theorem C6_idempotence_counterexample :
    (store env_all_ok db_fresh [] 0 "r").1 = .ok ()
    ∧ (store env_all_ok (store env_all_ok db_fresh [] 0 "r").2 [] 1 "r").1 = .ok ()
    ∧ lookup_scrape (store env_all_ok (store env_all_ok db_fresh [] 0 "r").2 [] 1 "r").2.en "r"
        ≠ lookup_scrape (store env_all_ok db_fresh [] 0 "r").2.en "r" := by
  refine ⟨rfl, rfl, ?_⟩
  decide

/-- C6 amended: when the delete and both updates succeed and every event in
the batch carries the room id, re-running `store` with identical events and
any second timestamp `t'` commits and yields exactly the state a single
`store` with `t'` on the original database yields: the stored event set is
unchanged (full replace, not merge), and with `t' = t` the whole state —
freshness timestamps included — is unchanged after the second call. -/
theorem C6_idempotence_amended (env : StoreEnv) (db : Db) (events : List Event)
    (t t' : Nat) (id : String) (hdel : env.delete_ok = true)
    (hen : env.update_en_ok = true) (hde : env.update_de_ok = true)
    (hev : ∀ e ∈ events, e.room_code = id) :
    (store env (store env db events t id).2 events t' id).1 = .ok ()
    ∧ (store env (store env db events t id).2 events t' id).2
        = (store env db events t' id).2 := by
  rw [store_success env db events t id hdel hen hde,
    store_success env db events t' id hdel hen hde]
  rw [show ((Except.ok () : Except StoreErr Unit),
      (⟨delete_events db.calendar id ++ events.filter env.insert_ok,
        sql_update_scrape db.en id t, sql_update_scrape db.de id t⟩ : Db)).2
    = (⟨delete_events db.calendar id ++ events.filter env.insert_ok,
        sql_update_scrape db.en id t, sql_update_scrape db.de id t⟩ : Db) from rfl]
  rw [store_success env _ events t' id hdel hen hde]
  have hcal : delete_events
      (delete_events db.calendar id ++ events.filter env.insert_ok) id
      = delete_events db.calendar id := by
    rw [delete_events_append, delete_events_delete_events,
      delete_events_of_forall (events.filter env.insert_ok) id
        (fun e he => hev e (List.mem_of_mem_filter he)),
      List.append_nil]
  refine ⟨rfl, ?_⟩
  show (⟨delete_events (delete_events db.calendar id ++ events.filter env.insert_ok) id
      ++ events.filter env.insert_ok,
      sql_update_scrape (sql_update_scrape db.en id t) id t',
      sql_update_scrape (sql_update_scrape db.de id t) id t'⟩ : Db) = _
  rw [hcal, sql_update_twice, sql_update_twice]

/-- C6 amended witness: storing `[ev_r]` twice with the same timestamp 5
leaves the state of the first call unchanged. -/
theorem C6_idempotence_amended_witness :
    (∀ e ∈ [ev_r], e.room_code = "r")
    ∧ ((store env_all_ok (store env_all_ok db_fresh [ev_r] 5 "r").2 [ev_r] 5 "r").1
        = .ok ()
      ∧ (store env_all_ok (store env_all_ok db_fresh [ev_r] 5 "r").2 [ev_r] 5 "r").2
        = (store env_all_ok db_fresh [ev_r] 5 "r").2) :=
  ⟨by decide,
    C6_idempotence_amended env_all_ok db_fresh [ev_r] 5 5 "r" rfl rfl rfl (by decide)⟩

/-- C8: if either OAuth environment variable is absent, the token fetch
fails with a configuration error naming the variable, with zero exchange
attempts; and any `refresh` whose cache requires a fetch then surfaces the
error with zero calendar GETs and an unchanged database. -/
theorem C8_config_error (env : TokenEnv)
    (h : env.env_var "CONNECTUM_OAUTH_CLIENT_ID" = none
      ∨ env.env_var "CONNECTUM_OAUTH_CLIENT_SECRET" = none) :
    (∃ v, (fetch_new_oauth_token env).1 = .error (.configError v))
    ∧ (fetch_new_oauth_token env).2 = 0
    ∧ (∀ (fe : Except Unit (List Event)) (se : StoreEnv)
        (ct : Option BasicTokenResponse) (db : Db) (id : String) (t : Nat),
        token_needs_refresh ct = true →
          (refresh ⟨env, fe, se⟩ ct db id t).2.2.2 = 0
          ∧ (refresh ⟨env, fe, se⟩ ct db id t).2.2.1 = db) := by
  have herr : ∃ v, (fetch_new_oauth_token env).1 = .error (.configError v)
      ∧ (fetch_new_oauth_token env).2 = 0 := by
    rcases hid : env.env_var "CONNECTUM_OAUTH_CLIENT_ID" with _ | cid
    · exact ⟨"CONNECTUM_OAUTH_CLIENT_ID", by simp [fetch_new_oauth_token, hid]⟩
    · rcases hsec : env.env_var "CONNECTUM_OAUTH_CLIENT_SECRET" with _ | cs
      · exact ⟨"CONNECTUM_OAUTH_CLIENT_SECRET",
          by simp [fetch_new_oauth_token, hid, hsec]⟩
      · rcases h with h | h
        · rw [hid] at h; cases h
        · rw [hsec] at h; cases h
  obtain ⟨v, hv, hz⟩ := herr
  refine ⟨⟨v, hv⟩, hz, ?_⟩
  intro fe se ct db id t hct
  have : try_unwrap_or_refresh_token (fetch_new_oauth_token env).1 ct
      = (.err (.configError v), ct, 1) := by
    rw [hv]
    simp [try_unwrap_or_refresh_token, hct]
  constructor <;> simp [refresh, this]

/-- C8 witness: with no environment variables set, the token fetch reports a
configuration error before any exchange, and a `refresh` from an empty cache
performs no calendar GET and leaves the database untouched. -/
theorem C8_config_error_witness :
    env_no_id.env_var "CONNECTUM_OAUTH_CLIENT_ID" = none
    ∧ ((∃ v, (fetch_new_oauth_token env_no_id).1 = .error (.configError v))
      ∧ (fetch_new_oauth_token env_no_id).2 = 0
      ∧ (∀ (fe : Except Unit (List Event)) (se : StoreEnv)
          (ct : Option BasicTokenResponse) (db : Db) (id : String) (t : Nat),
          token_needs_refresh ct = true →
            (refresh ⟨env_no_id, fe, se⟩ ct db id t).2.2.2 = 0
            ∧ (refresh ⟨env_no_id, fe, se⟩ ct db id t).2.2.1 = db)) :=
  ⟨rfl, C8_config_error env_no_id (Or.inl rfl)⟩

/-- C10: the freshness-update step never inserts a row (the key column of
each locale table is unchanged), a `store` whose delete and updates succeed
commits whether or not a freshness row exists, and the stamped-to-`t`
postcondition holds exactly for rooms whose freshness row pre-exists: a
missing row stays missing. -/
theorem C10_update_never_inserts (env : StoreEnv) (db : Db) (events : List Event)
    (t : Nat) (id : String) (hdel : env.delete_ok = true)
    (hen : env.update_en_ok = true) (hde : env.update_de_ok = true) :
    (store env db events t id).1 = .ok ()
    ∧ (store env db events t id).2.en.map Prod.fst = db.en.map Prod.fst
    ∧ (store env db events t id).2.de.map Prod.fst = db.de.map Prod.fst
    ∧ (lookup_scrape db.en id = none →
        lookup_scrape (store env db events t id).2.en id = none)
    ∧ (lookup_scrape db.de id = none →
        lookup_scrape (store env db events t id).2.de id = none)
    ∧ (∀ t0, lookup_scrape db.en id = some t0 →
        lookup_scrape (store env db events t id).2.en id = some t)
    ∧ (∀ t0, lookup_scrape db.de id = some t0 →
        lookup_scrape (store env db events t id).2.de id = some t) := by
  rw [store_success env db events t id hdel hen hde]
  refine ⟨rfl, sql_update_keys db.en id t, sql_update_keys db.de id t,
    ?_, ?_, ?_, ?_⟩
  · intro h0
    show lookup_scrape (sql_update_scrape db.en id t) id = none
    rw [lookup_sql_update_self, h0]
    rfl
  · intro h0
    show lookup_scrape (sql_update_scrape db.de id t) id = none
    rw [lookup_sql_update_self, h0]
    rfl
  · intro t0 h0
    show lookup_scrape (sql_update_scrape db.en id t) id = some t
    rw [lookup_sql_update_self, h0]
    rfl
  · intro t0 h0
    show lookup_scrape (sql_update_scrape db.de id t) id = some t
    rw [lookup_sql_update_self, h0]
    rfl

/-- C10 witness: storing into `db_empty` (no freshness rows) still commits
and leaves the room's freshness absent; the key columns are unchanged. -/
theorem C10_update_never_inserts_witness :
    lookup_scrape db_empty.en "r" = none
    ∧ ((store env_all_ok db_empty [ev_r] 4 "r").1 = .ok ()
      ∧ (store env_all_ok db_empty [ev_r] 4 "r").2.en.map Prod.fst
          = db_empty.en.map Prod.fst
      ∧ (store env_all_ok db_empty [ev_r] 4 "r").2.de.map Prod.fst
          = db_empty.de.map Prod.fst
      ∧ (lookup_scrape db_empty.en "r" = none →
          lookup_scrape (store env_all_ok db_empty [ev_r] 4 "r").2.en "r" = none)
      ∧ (lookup_scrape db_empty.de "r" = none →
          lookup_scrape (store env_all_ok db_empty [ev_r] 4 "r").2.de "r" = none)
      ∧ (∀ t0, lookup_scrape db_empty.en "r" = some t0 →
          lookup_scrape (store env_all_ok db_empty [ev_r] 4 "r").2.en "r" = some 4)
      ∧ (∀ t0, lookup_scrape db_empty.de "r" = some t0 →
          lookup_scrape (store env_all_ok db_empty [ev_r] 4 "r").2.de "r" = some 4)) :=
  ⟨rfl, C10_update_never_inserts env_all_ok db_empty [ev_r] 4 "r" rfl rfl rfl⟩

end Connectum
